import Mathlib

/-!
Verification development for the animation-and-movement subsystem of the
duck_nukem side-scroller.  The TypeScript classes are shallowly embedded:
numbers become exact rationals (ℚ), frame indices become integers (ℤ),
the polled keyboard intents become a record of booleans, and each `update`
method becomes a pure state-transition function.  Sprite image handles and
canvas drawing are external collaborators and are omitted; boolean
"loaded" flags are modelled in their steady state (all sprites loaded,
`this.animation` non-null), which is the state every claim speaks about.
-/

namespace DuckGame

/-! ## Animation.ts -/

/-- The `Animation` class (src/game/utils/Animation.ts): sprite-sheet
configuration plus the frame clock (`elapsedTime`, `currentFrame`).
The `image` handle is external and omitted. -/
structure Animation where
  frameWidth : ℚ
  frameHeight : ℚ
  row : ℤ
  frameCount : ℤ
  frameDuration : ℚ
  loop : Bool
  elapsedTime : ℚ
  currentFrame : ℤ
deriving DecidableEq, Repr

/-- The `Animation` constructor: stores the given configuration verbatim and
starts at `elapsedTime = 0`, `currentFrame = 0`.  In the source
`frameDuration` defaults to 100 and `loop` defaults to true; callers that
omit them get those values.  The constructor performs no validation. -/
def mkAnimation (frameWidth frameHeight : ℚ) (row frameCount : ℤ)
    (frameDuration : ℚ) (loop : Bool) : Animation :=
  { frameWidth := frameWidth, frameHeight := frameHeight, row := row,
    frameCount := frameCount, frameDuration := frameDuration, loop := loop,
    elapsedTime := 0, currentFrame := 0 }

/-- `Animation.update(deltaTime)` (Animation.ts lines 91-100):
accumulate `deltaTime`; when the accumulator strictly exceeds
`frameDuration`, reset it to 0 and advance `currentFrame` by one,
wrapping to 0 (looping) or clamping to `frameCount - 1` (non-looping)
when it reaches `frameCount`. -/
def Animation.update (deltaTime : ℚ) (a : Animation) : Animation :=
  let elapsedTime := a.elapsedTime + deltaTime
  if elapsedTime > a.frameDuration then
    let f := a.currentFrame + 1
    { a with elapsedTime := 0,
             currentFrame :=
               if f ≥ a.frameCount then (if a.loop then 0 else a.frameCount - 1) else f }
  else
    { a with elapsedTime := elapsedTime }

/-! ## InputHandler.ts

The keyboard-to-intent mapper is an external collaborator; the core polls
four boolean intents per tick.  `left` models `isMovingLeft()`,
`right` models `isMovingRight()`, `shift` models `isKeyPressed('Shift')`,
and `jump` models `isJumping()` (the jump-request query). -/

structure Input where
  left : Bool
  right : Bool
  shift : Bool
  jump : Bool
deriving DecidableEq, Repr

/-- The no-keys-pressed intent. -/
def inputNone : Input := ⟨false, false, false, false⟩

/-! ## Ground.ts -/

/-- `Ground.isOnGround(entityY, entityHeight)` (Ground.ts lines 53-55). -/
def Ground.isOnGround (groundLevel entityY entityHeight : ℚ) : Bool :=
  decide (entityY + entityHeight ≥ groundLevel)

/-! ## Duck.ts -/

/-- Normal walking speed in pixels per second. -/
def duckSpeed : ℚ := 200

/-- Running speed when holding shift. -/
def duckRunSpeed : ℚ := 650

/-- Initial upward force applied when jumping. -/
def duckJumpForce : ℚ := -400

/-- Gravity acceleration in pixels per second squared. -/
def duckGravity : ℚ := 800

/-- Width of each duck animation frame in pixels. -/
def duckFrameWidth : ℚ := 76

/-- Height of each duck animation frame in pixels. -/
def duckFrameHeight : ℚ := 90

/-- Animation type identifier for walking. -/
def ANIM_WALK : ℕ := 0

/-- Animation type identifier for running. -/
def ANIM_RUN : ℕ := 1

/-- Animation type identifier for jumping. -/
def ANIM_JUMP : ℕ := 2

/-- Animation type identifier for idle. -/
def ANIM_IDLE : ℕ := 3

/-- Mutable state of the `Duck` class.  Sprite handles and the four
loaded flags are omitted (steady state: all loaded). -/
structure Duck where
  x : ℚ
  y : ℚ
  velocityX : ℚ
  velocityY : ℚ
  isJumping : Bool
  facingLeft : Bool
  currentAnimType : ℕ
  animation : Animation
deriving DecidableEq, Repr

/-- `Duck.switchAnimation(newAnimType)` (Duck.ts lines 209-254): set the
current animation type and replace the `Animation` object with a fresh one
for that strip (walk 7 frames at 60 ms, run 4 at 40 ms, jump 16 at 50 ms,
idle 5 at 120 ms; `loop` is left at its default `true` in every call). -/
def Duck.switchAnimation (newAnimType : ℕ) (s : Duck) : Duck :=
  let s := { s with currentAnimType := newAnimType }
  if newAnimType = ANIM_WALK then
    { s with animation := mkAnimation duckFrameWidth duckFrameHeight 0 7 60 true }
  else if newAnimType = ANIM_RUN then
    { s with animation := mkAnimation duckFrameWidth duckFrameHeight 0 4 40 true }
  else if newAnimType = ANIM_JUMP then
    { s with animation := mkAnimation duckFrameWidth duckFrameHeight 0 16 50 true }
  else if newAnimType = ANIM_IDLE then
    { s with animation := mkAnimation duckFrameWidth duckFrameHeight 0 5 120 true }
  else s

/-- Intermediate vertical-physics record fed to the ground-collision block. -/
structure DuckPhys where
  y : ℚ
  velocityY : ℚ
  isJumping : Bool
deriving DecidableEq, Repr

/-- Ground-collision block of `Duck.update` (Duck.ts lines 297-314): when the
duck's bottom edge (`y + frameHeight/2`) reaches or passes the surface,
clamp `y`, zero `velocityY` and clear `isJumping`; otherwise the state is
left unchanged (the source has no else-branch here). -/
def duckResolveGround (groundLevel : ℚ) (p : DuckPhys) : DuckPhys :=
  if p.y + duckFrameHeight / 2 ≥ groundLevel then
    { y := groundLevel - duckFrameHeight / 2, velocityY := 0, isJumping := false }
  else p

/-- Physics section of `Duck.update` (Duck.ts lines 263-314): horizontal
velocity set from intent, jump edge, gravity, position integration, ground
collision.  Returns the updated duck together with the local `moving` and
`running` flags that the animation section reads. -/
def Duck.runPhysics (deltaTime : ℚ) (inp : Input) (groundLevel : ℚ) (s : Duck) :
    Duck × Bool × Bool :=
  let dt := deltaTime / 1000
  let m : ℚ × Bool × Bool × Bool :=
    if inp.left then
      ((if inp.shift then -duckRunSpeed else -duckSpeed), true, true, inp.shift)
    else if inp.right then
      ((if inp.shift then duckRunSpeed else duckSpeed), false, true, inp.shift)
    else (0, s.facingLeft, false, false)
  let jumpEdge := inp.jump && !s.isJumping
  let velocityY0 := if jumpEdge then duckJumpForce else s.velocityY
  let isJumping0 := if jumpEdge then true else s.isJumping
  let velocityY1 := velocityY0 + duckGravity * dt
  let x := s.x + m.1 * dt
  let y0 := s.y + velocityY1 * dt
  let g := duckResolveGround groundLevel
    { y := y0, velocityY := velocityY1, isJumping := isJumping0 }
  ({ s with x := x, y := g.y, velocityX := m.1, velocityY := g.velocityY,
            isJumping := g.isJumping, facingLeft := m.2.1 },
   m.2.2.1, m.2.2.2)

/-- Animation section of `Duck.update` (Duck.ts lines 316-348): pick the
animation type by priority (jump, then run/walk, then idle), switch strips
only when the type changes, then advance the frame clock — for the jump
strip only while below its last frame (freeze there), and otherwise only
when moving or idle. -/
def Duck.runAnimationStep (deltaTime : ℚ) (moving running : Bool) (s : Duck) : Duck :=
  let newAnimType :=
    if s.isJumping then ANIM_JUMP
    else if moving then (if running then ANIM_RUN else ANIM_WALK)
    else ANIM_IDLE
  let s2 := if newAnimType ≠ s.currentAnimType then Duck.switchAnimation newAnimType s else s
  if s2.isJumping ∧ s2.currentAnimType = ANIM_JUMP then
    (if s2.animation.currentFrame < 16 - 1 then
      { s2 with animation := Animation.update deltaTime s2.animation }
    else s2)
  else if moving ∨ s2.currentAnimType = ANIM_IDLE then
    { s2 with animation := Animation.update deltaTime s2.animation }
  else s2

/-- `Duck.update(deltaTime, ground)` (Duck.ts lines 263-349), with the ground
system present and `ground.getGroundLevel()` passed as `groundLevel`. -/
def Duck.update (deltaTime : ℚ) (inp : Input) (groundLevel : ℚ) (s : Duck) : Duck :=
  let r := Duck.runPhysics deltaTime inp groundLevel s
  Duck.runAnimationStep deltaTime r.2.1 r.2.2 r.1

/-- A duck as constructed at the origin after `initializeAnimation`
(idle strip: 5 frames at 120 ms, looping). -/
def duckInit : Duck :=
  { x := 0, y := 0, velocityX := 0, velocityY := 0, isJumping := false,
    facingLeft := false, currentAnimType := ANIM_IDLE,
    animation := mkAnimation duckFrameWidth duckFrameHeight 0 5 120 true }

/-! ## AngryBread.ts -/

/-- Bread gravity acceleration in pixels per second squared. -/
def breadGravity : ℚ := 2000

/-- Height of each bread animation frame in pixels. -/
def breadFrameHeight : ℚ := 32

/-- Bread rendering/collision scale factor (0.3 in the source). -/
def breadScale : ℚ := 3 / 10

/-- Number of frames in the bread walking animation. -/
def breadWalkFrameCount : ℤ := 5

/-- Duration of each bread animation frame in milliseconds. -/
def breadFrameDuration : ℚ := 100

/-- Mutable state of the `AngryBread` class (sprite handle and loaded flag
omitted). -/
structure AngryBread where
  x : ℚ
  y : ℚ
  velocityX : ℚ
  velocityY : ℚ
  facingLeft : Bool
  startX : ℚ
  patrolDistance : ℚ
  currentFrame : ℤ
  animationTime : ℚ
  isOnGround : Bool
deriving DecidableEq, Repr

/-- The `AngryBread` constructor (AngryBread.ts lines 94-101):
patrol speed starts at 50 px/s facing right. -/
def mkAngryBread (x y patrolDistance : ℚ) : AngryBread :=
  { x := x, y := y, velocityX := 50, velocityY := 0, facingLeft := false,
    startX := x, patrolDistance := patrolDistance, currentFrame := 0,
    animationTime := 0, isOnGround := false }

/-- `AngryBread.updateAnimation(deltaTime)` (AngryBread.ts lines 157-164). -/
def AngryBread.updateAnimation (deltaTime : ℚ) (s : AngryBread) : AngryBread :=
  let animationTime := s.animationTime + deltaTime
  if animationTime ≥ breadFrameDuration then
    { s with currentFrame := (s.currentFrame + 1) % breadWalkFrameCount,
             animationTime := 0 }
  else { s with animationTime := animationTime }

/-- `AngryBread.updatePatrolMovement(deltaTime)` (AngryBread.ts lines
173-191): flip direction when at least `patrolDistance` away from the
spawn point, then integrate `x`. -/
def AngryBread.updatePatrolMovement (deltaTime : ℚ) (s : AngryBread) : AngryBread :=
  let deltaSeconds := deltaTime / 1000
  let distanceFromStart := s.x - s.startX
  let s1 :=
    if distanceFromStart ≥ s.patrolDistance then
      { s with facingLeft := true, velocityX := -|s.velocityX| }
    else if distanceFromStart ≤ -s.patrolDistance then
      { s with facingLeft := false, velocityX := |s.velocityX| }
    else s
  { s1 with x := s1.x + s1.velocityX * deltaSeconds }

/-- `AngryBread.updatePhysics(deltaTime, ground)` (AngryBread.ts lines
200-218): gravity, vertical integration, then ground collision using the
full scaled frame height via `Ground.isOnGround`. -/
def AngryBread.updatePhysics (groundLevel deltaTime : ℚ) (s : AngryBread) : AngryBread :=
  let deltaSeconds := deltaTime / 1000
  let velocityY := s.velocityY + breadGravity * deltaSeconds
  let y0 := s.y + velocityY * deltaSeconds
  let scaledHeight := breadFrameHeight * breadScale
  if Ground.isOnGround groundLevel y0 scaledHeight then
    { s with velocityY := 0, y := groundLevel - scaledHeight / 2, isOnGround := true }
  else
    { s with velocityY := velocityY, y := y0, isOnGround := false }

/-- `AngryBread.update(deltaTime, ground)` (AngryBread.ts lines 140-149). -/
def AngryBread.updateAll (groundLevel deltaTime : ℚ) (s : AngryBread) : AngryBread :=
  AngryBread.updatePhysics groundLevel deltaTime
    (AngryBread.updatePatrolMovement deltaTime (AngryBread.updateAnimation deltaTime s))

/-! ## Camera.ts -/

/-- Mutable state of the `Camera` class. -/
structure Camera where
  x : ℚ
  y : ℚ
  targetX : ℚ
  targetY : ℚ
  viewportWidth : ℚ
  viewportHeight : ℚ
  smoothing : ℚ
  minX : ℚ
  maxX : ℚ
  fixedY : ℚ
  followY : Bool
deriving DecidableEq, Repr

/-- The `Camera` constructor (Camera.ts lines 62-67) with its field
defaults: smoothing 0.1, bounds [0, 2000], fixed Y 300, `followY` off. -/
def mkCamera (viewportWidth viewportHeight : ℚ) : Camera :=
  { x := 0, y := 300, targetX := 0, targetY := 300,
    viewportWidth := viewportWidth, viewportHeight := viewportHeight,
    smoothing := 1 / 10, minX := 0, maxX := 2000, fixedY := 300, followY := false }

/-- `Camera.setBounds(minX, maxX)` (Camera.ts lines 168-171). -/
def Camera.setBounds (minX maxX : ℚ) (c : Camera) : Camera :=
  { c with minX := minX, maxX := maxX }

/-- `Camera.followTarget(x, y)` (Camera.ts lines 76-85): centre the target
in the viewport and clamp the stored target into
`[minX, maxX - viewportWidth]`. -/
def Camera.followTarget (x y : ℚ) (c : Camera) : Camera :=
  let targetX := x - c.viewportWidth / 2
  let targetY := if c.followY then y - c.viewportHeight / 2 else c.targetY
  { c with targetX := max c.minX (min targetX (c.maxX - c.viewportWidth)),
           targetY := targetY }

/-- A bread hovering just above the surface: its centre is 8 px above a
surface at y = 100, so its half-scaled-height bottom edge (y + 4.8) is
still above the surface while y + full scaled height (y + 9.6) is below. -/
def breadNearSurface : AngryBread :=
  { x := 0, y := 92, velocityX := 50, velocityY := 0, facingLeft := false,
    startX := 0, patrolDistance := 150, currentFrame := 0, animationTime := 0,
    isOnGround := false }

/-!  ## Theorems  -/

/-- C8: Ground clamp idempotence — resolving ground collision twice with the
same surface height equals resolving it once; in particular, once the
correction has been applied a second resolve changes neither `position.y`
nor `velocity.y` (nor the jumping flag). -/
theorem C8_ground_clamp_idempotent (groundLevel : ℚ) (p : DuckPhys) :
    duckResolveGround groundLevel (duckResolveGround groundLevel p) =
      duckResolveGround groundLevel p := by
  by_cases h : p.y + duckFrameHeight / 2 ≥ groundLevel
  · have h2 : groundLevel - duckFrameHeight / 2 + duckFrameHeight / 2 ≥ groundLevel := by
      linarith
    simp [duckResolveGround, h, h2]
  · simp [duckResolveGround, h]

/-- C6: Non-looping freeze — for a non-looping 16-frame strip whose frame
index has reached 15, any further sequence of `Animation.update` calls
(arbitrary elapsed times, arbitrarily many ticks) leaves the frame index
at 15. -/
theorem C6_nonlooping_freeze (fw fh : ℚ) (row : ℤ) (fd e : ℚ) (dts : List ℚ) :
    (dts.foldl (fun a d => Animation.update d a)
      { frameWidth := fw, frameHeight := fh, row := row, frameCount := 16,
        frameDuration := fd, loop := false, elapsedTime := e,
        currentFrame := 15 }).currentFrame = 15 := by
  induction dts generalizing e with
  | nil => rfl
  | cons d ds ih =>
      simp only [List.foldl_cons]
      by_cases h : e + d > fd
      · have hu : Animation.update d
            { frameWidth := fw, frameHeight := fh, row := row, frameCount := 16,
              frameDuration := fd, loop := false, elapsedTime := e, currentFrame := 15 } =
            { frameWidth := fw, frameHeight := fh, row := row, frameCount := 16,
              frameDuration := fd, loop := false, elapsedTime := 0, currentFrame := 15 } := by
          norm_num [Animation.update, h]
        rw [hu]; exact ih 0
      · have hu : Animation.update d
            { frameWidth := fw, frameHeight := fh, row := row, frameCount := 16,
              frameDuration := fd, loop := false, elapsedTime := e, currentFrame := 15 } =
            { frameWidth := fw, frameHeight := fh, row := row, frameCount := 16,
              frameDuration := fd, loop := false, elapsedTime := e + d, currentFrame := 15 } := by
          norm_num [Animation.update, h]
        rw [hu]; exact ih (e + d)

/-- C2 counterexample: the frame clock discards the residual.  With the walk
strip (frameDuration 60) and a fresh clock, an update of 150 ms steps one
frame but leaves the accumulator at 0, not at the residual 150 - 60 = 90
the claim predicts. -/
theorem C2_counterexample :
    (Animation.update 150 (mkAnimation 76 90 0 7 60 true)).elapsedTime = 0 ∧
    (Animation.update 150 (mkAnimation 76 90 0 7 60 true)).elapsedTime ≠ 0 + 150 - 60 := by
  norm_num [Animation.update, mkAnimation]

/-- C2 amended: `Animation.update` adds `deltaTime` to the accumulator; if
the sum does not exceed `frameDuration` nothing else changes; if it strictly
exceeds it, the accumulator is reset to 0 (the residual is discarded, not
kept), and the frame index advances by at most one — exactly one when not
yet at the strip end (wrap/clamp applies there).  At most one frame step
occurs per call regardless of how large `deltaTime` is. -/
theorem C2_amended (a : Animation) (d : ℚ) (hf : 0 ≤ a.currentFrame) :
    (a.elapsedTime + d ≤ a.frameDuration →
        Animation.update d a = { a with elapsedTime := a.elapsedTime + d }) ∧
    (a.frameDuration < a.elapsedTime + d →
        (Animation.update d a).elapsedTime = 0 ∧
        (Animation.update d a).currentFrame ≤ a.currentFrame + 1 ∧
        (a.currentFrame + 1 < a.frameCount →
          (Animation.update d a).currentFrame = a.currentFrame + 1)) := by
  constructor
  · intro h
    have h' : ¬ (a.elapsedTime + d > a.frameDuration) := not_lt.mpr h
    simp [Animation.update, h']
  · intro h
    have h' : a.elapsedTime + d > a.frameDuration := h
    simp only [Animation.update, if_pos h']
    refine ⟨trivial, ?_, ?_⟩
    · split_ifs <;> omega
    · intro hlt
      split_ifs <;> omega

/-- C2 witness: instantiates the amended frame-clock theorem on the walk
strip with a 100 ms update from a fresh clock. -/
theorem C2_amended_witness :
    0 ≤ (mkAnimation 76 90 0 7 60 true).currentFrame ∧
    (((mkAnimation 76 90 0 7 60 true).elapsedTime + 100 ≤
          (mkAnimation 76 90 0 7 60 true).frameDuration →
        Animation.update 100 (mkAnimation 76 90 0 7 60 true) =
          { mkAnimation 76 90 0 7 60 true with
              elapsedTime := (mkAnimation 76 90 0 7 60 true).elapsedTime + 100 }) ∧
      ((mkAnimation 76 90 0 7 60 true).frameDuration <
          (mkAnimation 76 90 0 7 60 true).elapsedTime + 100 →
        (Animation.update 100 (mkAnimation 76 90 0 7 60 true)).elapsedTime = 0 ∧
        (Animation.update 100 (mkAnimation 76 90 0 7 60 true)).currentFrame ≤
          (mkAnimation 76 90 0 7 60 true).currentFrame + 1 ∧
        ((mkAnimation 76 90 0 7 60 true).currentFrame + 1 <
            (mkAnimation 76 90 0 7 60 true).frameCount →
          (Animation.update 100 (mkAnimation 76 90 0 7 60 true)).currentFrame =
            (mkAnimation 76 90 0 7 60 true).currentFrame + 1))) :=
  ⟨by norm_num [mkAnimation],
   C2_amended (mkAnimation 76 90 0 7 60 true) 100 (by norm_num [mkAnimation])⟩

/-- C9 counterexample: malformed configuration is not rejected.  The
constructor accepts a zero frame count and a negative frame duration and
returns a normally-constructed object; the misbehaviour only appears later
in the update loop, where the frame index becomes -1. -/
theorem C9_counterexample :
    (mkAnimation 76 90 0 0 (-5) false).currentFrame = 0 ∧
    (mkAnimation 76 90 0 0 (-5) false).frameCount = 0 ∧
    (mkAnimation 76 90 0 0 (-5) false).frameDuration = -5 ∧
    (Animation.update 1 (mkAnimation 76 90 0 0 (-5) false)).currentFrame = -1 := by
  norm_num [Animation.update, mkAnimation]

/-- C9 amended: the `Animation` constructor performs no validation —
construction always succeeds and stores the given configuration verbatim
with a fresh clock; for a zero-frame non-looping strip the first
qualifying update drives the frame index to -1, i.e. the misbehaviour
appears only during the update loop. -/
theorem C9_amended (fw fh : ℚ) (row fc : ℤ) (fd : ℚ) (loop : Bool) (d : ℚ) :
    mkAnimation fw fh row fc fd loop =
      { frameWidth := fw, frameHeight := fh, row := row, frameCount := fc,
        frameDuration := fd, loop := loop, elapsedTime := 0, currentFrame := 0 } ∧
    (fd < d → (Animation.update d (mkAnimation fw fh 0 0 fd false)).currentFrame = -1) := by
  constructor
  · rfl
  · intro h
    simp [Animation.update, mkAnimation, h]

/-- C9 witness: a zero-frame strip with frame duration 0 is constructed
without complaint and reaches frame index -1 on a 1 ms update. -/
theorem C9_amended_witness :
    ((0:ℚ) < 1) ∧ (Animation.update 1 (mkAnimation 76 90 0 0 0 false)).currentFrame = -1 :=
  ⟨by norm_num, (C9_amended 76 90 0 0 0 false 1).2 (by norm_num)⟩

/-- C4 counterexample: the patrol bound can be overshot.  From the spawn
point (x = 1000, radius 150, speed 50) a single 4000 ms tick moves the
bread to x = 1200 > 1150: the direction check happens before integration,
so one tick can carry the enemy past the bound by `speed * dt`. -/
theorem C4_counterexample :
    (AngryBread.updatePatrolMovement 4000 (mkAngryBread 1000 0 150)).x = 1200 ∧
    ¬ ((AngryBread.updatePatrolMovement 4000 (mkAngryBread 1000 0 150)).x ≤ 1150) := by
  norm_num [AngryBread.updatePatrolMovement, mkAngryBread]

/-- C3 counterexample: the AngryBread resolver grounds an entity whose
bottom edge (centre + half scaled height) is still above the surface.
At y = 92 over a surface at 100, the claimed bottom edge is 96.8 < 100,
yet `updatePhysics` reports grounded and moves the bread, because the
source tests `y + scaledHeight >= surfaceY` with the full scaled height. -/
theorem C3_counterexample :
    breadNearSurface.y + breadFrameHeight * breadScale / 2 < 100 ∧
    (AngryBread.updatePhysics 100 0 breadNearSurface).isOnGround = true ∧
    (AngryBread.updatePhysics 100 0 breadNearSurface).y ≠ breadNearSurface.y := by
  norm_num [AngryBread.updatePhysics, Ground.isOnGround, breadNearSurface,
    breadFrameHeight, breadScale, breadGravity]

/-- The horizontal velocity the integrator assigns for a given intent
(Duck.ts lines 267-282): left wins over right, shift selects run speed. -/
def duckVX (inp : Input) : ℚ :=
  if inp.left then (if inp.shift then -duckRunSpeed else -duckSpeed)
  else if inp.right then (if inp.shift then duckRunSpeed else duckSpeed)
  else 0

/-- The vertical state after jump edge, gravity and integration but before
ground collision (Duck.ts lines 284-295). -/
def duckIntegrate (d : ℚ) (inp : Input) (s : Duck) : DuckPhys :=
  let dt := d / 1000
  let jumpEdge := inp.jump && !s.isJumping
  let velocityY1 := (if jumpEdge then duckJumpForce else s.velocityY) + duckGravity * dt
  { y := s.y + velocityY1 * dt, velocityY := velocityY1,
    isJumping := jumpEdge || s.isJumping }

/-- `switchAnimation` only touches `currentAnimType` and `animation`:
all physics fields pass through unchanged. -/
theorem Duck.switchAnimation_phys (t : ℕ) (s : Duck) :
    (Duck.switchAnimation t s).x = s.x ∧ (Duck.switchAnimation t s).y = s.y ∧
    (Duck.switchAnimation t s).velocityX = s.velocityX ∧
    (Duck.switchAnimation t s).velocityY = s.velocityY ∧
    (Duck.switchAnimation t s).isJumping = s.isJumping ∧
    (Duck.switchAnimation t s).facingLeft = s.facingLeft := by
  unfold Duck.switchAnimation
  split_ifs <;> simp

/-- The animation section of `Duck.update` only touches `currentAnimType`
and `animation`: all physics fields pass through unchanged. -/
theorem Duck.runAnimationStep_phys (d : ℚ) (mv rn : Bool) (s : Duck) :
    (Duck.runAnimationStep d mv rn s).x = s.x ∧
    (Duck.runAnimationStep d mv rn s).y = s.y ∧
    (Duck.runAnimationStep d mv rn s).velocityX = s.velocityX ∧
    (Duck.runAnimationStep d mv rn s).velocityY = s.velocityY ∧
    (Duck.runAnimationStep d mv rn s).isJumping = s.isJumping ∧
    (Duck.runAnimationStep d mv rn s).facingLeft = s.facingLeft := by
  simp only [Duck.runAnimationStep]
  generalize (if s.isJumping = true then ANIM_JUMP
      else if mv = true then (if rn = true then ANIM_RUN else ANIM_WALK) else ANIM_IDLE) = nt
  obtain ⟨h1, h2, h3, h4, h5, h6⟩ := Duck.switchAnimation_phys nt s
  generalize hA : Duck.switchAnimation nt s = t at *
  split_ifs <;> simp_all

/-- Field-level description of the physics section of `Duck.update`. -/
theorem Duck.runPhysics_proj (d : ℚ) (inp : Input) (L : ℚ) (s : Duck) :
    (Duck.runPhysics d inp L s).1.x = s.x + duckVX inp * (d / 1000) ∧
    (Duck.runPhysics d inp L s).1.velocityX = duckVX inp ∧
    (Duck.runPhysics d inp L s).1.facingLeft =
      (if inp.left then true else if inp.right then false else s.facingLeft) ∧
    (Duck.runPhysics d inp L s).1.y = (duckResolveGround L (duckIntegrate d inp s)).y ∧
    (Duck.runPhysics d inp L s).1.velocityY =
      (duckResolveGround L (duckIntegrate d inp s)).velocityY ∧
    (Duck.runPhysics d inp L s).1.isJumping =
      (duckResolveGround L (duckIntegrate d inp s)).isJumping ∧
    (Duck.runPhysics d inp L s).2.1 = (inp.left || inp.right) ∧
    (Duck.runPhysics d inp L s).2.2 = ((inp.left || inp.right) && inp.shift) := by
  rcases inp with ⟨l, r, sh, j⟩
  unfold Duck.runPhysics duckVX duckIntegrate
  cases l <;> cases r <;> cases sh <;> cases j <;> cases hj : s.isJumping <;> simp [hj]

/-- The x coordinate after one `Duck.update` tick: the horizontal velocity
is recomputed from intent alone each tick, so x advances by exactly
`duckVX inp * dt`. -/
theorem Duck.update_x (d : ℚ) (inp : Input) (L : ℚ) (s : Duck) :
    (Duck.update d inp L s).x = s.x + duckVX inp * (d / 1000) := by
  unfold Duck.update
  rw [(Duck.runAnimationStep_phys d _ _ _).1, (Duck.runPhysics_proj d inp L s).1]

/-- C10: Implicit left-priority — when both horizontal intents are set, the
tick is identical to a tick with only the left intent: the full post-state
is equal, horizontal velocity is `-runSpeed`/`-walkSpeed` per the shift
modifier, and facing becomes left. -/
theorem C10_left_priority (d L : ℚ) (s : Duck) (sh j : Bool) :
    Duck.update d ⟨true, true, sh, j⟩ L s = Duck.update d ⟨true, false, sh, j⟩ L s ∧
    (Duck.update d ⟨true, true, sh, j⟩ L s).velocityX =
      (if sh then -650 else -200) ∧
    (Duck.update d ⟨true, true, sh, j⟩ L s).facingLeft = true := by
  have heq : Duck.runPhysics d ⟨true, true, sh, j⟩ L s =
      Duck.runPhysics d ⟨true, false, sh, j⟩ L s := by
    unfold Duck.runPhysics
    simp
  refine ⟨?_, ?_, ?_⟩
  · unfold Duck.update
    rw [heq]
  · rw [show (Duck.update d ⟨true, true, sh, j⟩ L s).velocityX = duckVX ⟨true, true, sh, j⟩ from by
      unfold Duck.update
      rw [(Duck.runAnimationStep_phys d _ _ _).2.2.1,
        (Duck.runPhysics_proj d ⟨true, true, sh, j⟩ L s).2.1]]
    cases sh <;> norm_num [duckVX, duckRunSpeed, duckSpeed]
  · unfold Duck.update
    rw [(Duck.runAnimationStep_phys d _ _ _).2.2.2.2.2,
      (Duck.runPhysics_proj d ⟨true, true, sh, j⟩ L s).2.2.1]
    simp

/-- C5: No double jump — on a tick where the duck is already airborne
(`isJumping = true`), the jump intent has no effect at all (the post-states
with and without it are equal), and as long as the tick does not end in
ground contact, the vertical velocity is exactly the old one plus
`gravity * dt`. -/
theorem C5_no_double_jump (d L : ℚ) (s : Duck) (inp : Input)
    (h : s.isJumping = true) :
    Duck.update d inp L s = Duck.update d ⟨inp.left, inp.right, inp.shift, false⟩ L s ∧
    (s.y + (s.velocityY + duckGravity * (d / 1000)) * (d / 1000) + duckFrameHeight / 2 < L →
      (Duck.update d inp L s).velocityY = s.velocityY + duckGravity * (d / 1000)) := by
  constructor
  · rcases inp with ⟨l, r, sh, j⟩
    have heq : Duck.runPhysics d ⟨l, r, sh, j⟩ L s = Duck.runPhysics d ⟨l, r, sh, false⟩ L s := by
      unfold Duck.runPhysics
      simp [h]
    unfold Duck.update
    rw [heq]
  · intro hair
    have hint : duckIntegrate d inp s =
        { y := s.y + (s.velocityY + duckGravity * (d / 1000)) * (d / 1000),
          velocityY := s.velocityY + duckGravity * (d / 1000), isJumping := true } := by
      simp [duckIntegrate, h]
    have hylt : (duckIntegrate d inp s).y + duckFrameHeight / 2 < L := by
      rw [hint]
      exact hair
    have hres : duckResolveGround L (duckIntegrate d inp s) = duckIntegrate d inp s := by
      unfold duckResolveGround
      rw [if_neg (not_le.mpr hylt)]
    have hv : (Duck.update d inp L s).velocityY =
        (duckResolveGround L (duckIntegrate d inp s)).velocityY := by
      unfold Duck.update
      rw [(Duck.runAnimationStep_phys d _ _ _).2.2.2.1,
        (Duck.runPhysics_proj d inp L s).2.2.2.2.1]
    rw [hv, hres, hint]

/-- A duck in mid-jump, far above the surface at 850. -/
def duckAirborne : Duck :=
  { x := 0, y := -3000, velocityX := 0, velocityY := -400, isJumping := true,
    facingLeft := false, currentAnimType := ANIM_JUMP,
    animation := mkAnimation duckFrameWidth duckFrameHeight 0 16 50 true }

/-- C5 witness: a concrete airborne duck, every key held, one 10 ms tick
high above the surface. -/
theorem C5_witness :
    duckAirborne.isJumping = true ∧
    Duck.update 10 ⟨true, true, true, true⟩ 850 duckAirborne =
      Duck.update 10 ⟨true, true, true, false⟩ 850 duckAirborne ∧
    (Duck.update 10 ⟨true, true, true, true⟩ 850 duckAirborne).velocityY =
      duckAirborne.velocityY + duckGravity * (10 / 1000) := by
  have h := C5_no_double_jump 10 850 duckAirborne ⟨true, true, true, true⟩ rfl
  exact ⟨rfl, h.1, h.2 (by norm_num [duckAirborne, duckGravity, duckFrameHeight])⟩

/-- One free-fall tick with no input, airborne throughout: position and
velocity follow one explicit-Euler step of gravity; x is unchanged. -/
theorem duck_freefall_step (d L : ℚ) (s : Duck)
    (hair : s.y + (s.velocityY + duckGravity * (d / 1000)) * (d / 1000) +
      duckFrameHeight / 2 < L) :
    (Duck.update d inputNone L s).y =
      s.y + (s.velocityY + duckGravity * (d / 1000)) * (d / 1000) ∧
    (Duck.update d inputNone L s).velocityY = s.velocityY + duckGravity * (d / 1000) ∧
    (Duck.update d inputNone L s).x = s.x := by
  have hint : duckIntegrate d inputNone s =
      { y := s.y + (s.velocityY + duckGravity * (d / 1000)) * (d / 1000),
        velocityY := s.velocityY + duckGravity * (d / 1000),
        isJumping := s.isJumping } := by
    simp [duckIntegrate, inputNone]
  have hylt : (duckIntegrate d inputNone s).y + duckFrameHeight / 2 < L := by
    rw [hint]
    exact hair
  have hres : duckResolveGround L (duckIntegrate d inputNone s) =
      duckIntegrate d inputNone s := by
    unfold duckResolveGround
    rw [if_neg (not_le.mpr hylt)]
  refine ⟨?_, ?_, ?_⟩
  · have hy : (Duck.update d inputNone L s).y =
        (duckResolveGround L (duckIntegrate d inputNone s)).y := by
      unfold Duck.update
      rw [(Duck.runAnimationStep_phys d _ _ _).2.1,
        (Duck.runPhysics_proj d inputNone L s).2.2.2.1]
    rw [hy, hres, hint]
  · have hv : (Duck.update d inputNone L s).velocityY =
        (duckResolveGround L (duckIntegrate d inputNone s)).velocityY := by
      unfold Duck.update
      rw [(Duck.runAnimationStep_phys d _ _ _).2.2.2.1,
        (Duck.runPhysics_proj d inputNone L s).2.2.2.2.1]
    rw [hv, hres, hint]
  · rw [Duck.update_x]
    simp [duckVX, inputNone]

/-- Free fall from rest under 10 ms ticks: after n ticks the duck has
fallen n(n+1)/25 pixels and moves at 8n px/s (iterated explicit Euler). -/
theorem duck_freefall_iterate :
    ∀ n : ℕ, n ≤ 100 →
      ((fun s => Duck.update 10 inputNone 100000 s)^[n] duckInit).y =
          (n : ℚ) * ((n : ℚ) + 1) / 25 ∧
        ((fun s => Duck.update 10 inputNone 100000 s)^[n] duckInit).velocityY =
          8 * (n : ℚ) := by
  intro n
  induction n with
  | zero => intro _; norm_num [duckInit]
  | succ k ih =>
      intro hn
      obtain ⟨hy, hv⟩ := ih (Nat.le_of_succ_le hn)
      have hkq : (k : ℚ) ≤ 99 := by
        have : k ≤ 99 := by omega
        exact_mod_cast this
      have hk0 : (0 : ℚ) ≤ (k : ℚ) := Nat.cast_nonneg k
      rw [Function.iterate_succ_apply']
      have hair : ((fun s => Duck.update 10 inputNone 100000 s)^[k] duckInit).y +
          (((fun s => Duck.update 10 inputNone 100000 s)^[k] duckInit).velocityY +
            duckGravity * ((10 : ℚ) / 1000)) * ((10 : ℚ) / 1000) +
          duckFrameHeight / 2 < 100000 := by
        rw [hy, hv]
        unfold duckGravity duckFrameHeight
        nlinarith [hk0, hkq]
      obtain ⟨hy', hv', _⟩ := duck_freefall_step 10 100000 _ hair
      constructor
      · rw [hy', hy, hv]
        unfold duckGravity
        push_cast
        ring
      · rw [hv', hv]
        unfold duckGravity
        push_cast
        ring

/-- C1 counterexample: simulating 1000 ms of free fall (no input, surface
far below) as one 1000 ms tick ends at y = 800, while 100 ticks of 10 ms
end at y = 404 — the vertical coordinate is not frame-rate independent. -/
theorem C1_counterexample :
    ((fun s => Duck.update 10 inputNone 100000 s)^[100] duckInit).y = 404 ∧
    (Duck.update 1000 inputNone 100000 duckInit).y = 800 ∧
    ((fun s => Duck.update 10 inputNone 100000 s)^[100] duckInit).y ≠
      (Duck.update 1000 inputNone 100000 duckInit).y := by
  have h100 := (duck_freefall_iterate 100 (le_refl 100)).1
  have hsingle := (duck_freefall_step 1000 100000 duckInit
    (by norm_num [duckInit, duckGravity, duckFrameHeight])).1
  have e1 : ((fun s => Duck.update 10 inputNone 100000 s)^[100] duckInit).y = 404 := by
    rw [h100]; norm_num
  have e2 : (Duck.update 1000 inputNone 100000 duckInit).y = 800 := by
    rw [hsingle]; norm_num [duckInit, duckGravity]
  refine ⟨e1, e2, ?_⟩
  rw [e1, e2]
  norm_num

/-- C1 amended: frame-rate independence holds exactly for the horizontal
coordinate — for every constant intent, every start state and every
surface height, 100 ticks of 10 ms end at the same x as one tick of
1000 ms.  (The vertical coordinate violates it while airborne, see the
counterexample.) -/
theorem C1_amended (inp : Input) (L : ℚ) (s : Duck) :
    ((fun t => Duck.update 10 inp L t)^[100] s).x = (Duck.update 1000 inp L s).x := by
  have hiter : ∀ n : ℕ, ((fun t => Duck.update 10 inp L t)^[n] s).x =
      s.x + duckVX inp * (10 / 1000) * (n : ℚ) := by
    intro n
    induction n with
    | zero => simp
    | succ k ih =>
        rw [Function.iterate_succ_apply', Duck.update_x, ih]
        push_cast
        ring
  rw [hiter 100, Duck.update_x]
  push_cast
  ring

/-- One patrol tick with duration at most Δ ms preserves: speed magnitude
50, spawn parameters, and position within one-tick overshoot of the patrol
band, `[850 - Δ/20, 1150 + Δ/20]`. -/
theorem patrol_step_inv (Δ d : ℚ) (hd0 : 0 ≤ d) (hd1 : d ≤ Δ) (s : AngryBread)
    (hstart : s.startX = 1000) (hpd : s.patrolDistance = 150)
    (hv : s.velocityX = 50 ∨ s.velocityX = -50)
    (hlo : 850 - Δ / 20 ≤ s.x) (hhi : s.x ≤ 1150 + Δ / 20) :
    (AngryBread.updatePatrolMovement d s).startX = 1000 ∧
    (AngryBread.updatePatrolMovement d s).patrolDistance = 150 ∧
    ((AngryBread.updatePatrolMovement d s).velocityX = 50 ∨
      (AngryBread.updatePatrolMovement d s).velocityX = -50) ∧
    850 - Δ / 20 ≤ (AngryBread.updatePatrolMovement d s).x ∧
    (AngryBread.updatePatrolMovement d s).x ≤ 1150 + Δ / 20 := by
  simp only [AngryBread.updatePatrolMovement, hstart, hpd]
  split_ifs with hA hB
  · -- at or beyond the right bound: velocity forced to -50
    have habs : |s.velocityX| = 50 := by rcases hv with hv | hv <;> rw [hv] <;> norm_num
    simp only [habs]
    refine ⟨by simp [hstart], by simp [hpd], by norm_num, ?_, ?_⟩ <;> nlinarith
  · -- at or beyond the left bound: velocity forced to +50
    have habs : |s.velocityX| = 50 := by rcases hv with hv | hv <;> rw [hv] <;> norm_num
    simp only [habs]
    refine ⟨by simp [hstart], by simp [hpd], by norm_num, ?_, ?_⟩ <;> nlinarith
  · -- strictly inside the band: velocity keeps its sign
    push_neg at hA hB
    refine ⟨by simp [hstart], by simp [hpd], by simpa using hv, ?_, ?_⟩ <;>
      rcases hv with hv | hv <;> simp only [hv] <;> nlinarith

/-- C4 amended: with spawnX = 1000, patrolRadius = 150 and speed 50, for
every sequence of tick durations bounded by Δ ms, the enemy's x stays in
`[850 - 50·(Δ/1000), 1150 + 50·(Δ/1000)]`: the direction flip happens at
the stated bounds, but the post-flip-check integration can overshoot each
bound by at most one tick of travel, `speed * dt` (see the
counterexample).  The exact bounds 850/1150 of the claim hold only in that
one-tick-overshoot weakened form. -/
theorem C4_amended (Δ : ℚ) (hΔ : 0 ≤ Δ) :
    ∀ dts : List ℚ, (∀ d ∈ dts, 0 ≤ d ∧ d ≤ Δ) →
    ∀ s : AngryBread, s.startX = 1000 → s.patrolDistance = 150 →
      (s.velocityX = 50 ∨ s.velocityX = -50) →
      850 - Δ / 20 ≤ s.x → s.x ≤ 1150 + Δ / 20 →
      850 - Δ / 20 ≤
          (dts.foldl (fun a d => AngryBread.updatePatrolMovement d a) s).x ∧
        (dts.foldl (fun a d => AngryBread.updatePatrolMovement d a) s).x ≤
          1150 + Δ / 20 := by
  intro dts
  induction dts with
  | nil =>
      intro _ s _ _ _ h4 h5
      exact ⟨h4, h5⟩
  | cons d ds ih =>
      intro hdts s hstart hpd hv hlo hhi
      have hd := hdts d (by simp)
      obtain ⟨k1, k2, k3, k4, k5⟩ :=
        patrol_step_inv Δ d hd.1 hd.2 s hstart hpd hv hlo hhi
      simp only [List.foldl_cons]
      exact ih (fun d' hd' => hdts d' (by simp [hd'])) _ k1 k2 k3 k4 k5

/-- C4 witness: three 16 ms ticks from the spawn point with cap Δ = 100 ms. -/
theorem C4_amended_witness :
    850 - (100 : ℚ) / 20 ≤
        (([16, 16, 16] : List ℚ).foldl (fun a d => AngryBread.updatePatrolMovement d a)
          (mkAngryBread 1000 0 150)).x ∧
      (([16, 16, 16] : List ℚ).foldl (fun a d => AngryBread.updatePatrolMovement d a)
          (mkAngryBread 1000 0 150)).x ≤ 1150 + (100 : ℚ) / 20 :=
  C4_amended 100 (by norm_num) [16, 16, 16]
    (by
      intro d hd
      have h16 : d = 16 := by simpa using hd
      subst h16
      norm_num)
    (mkAngryBread 1000 0 150) rfl rfl (Or.inl rfl)
    (by norm_num [mkAngryBread]) (by norm_num [mkAngryBread])

/-- C3 amended: resolver postconditions as the code implements them.  For
AngryBread the grounding test compares `y + scaledHeight` (the full scaled
frame height, not half of it) with the surface; when it triggers, y is
re-centred to `surfaceY - scaledHeight/2`, vertical velocity is zeroed and
grounded is set; otherwise grounded is cleared.  For the Duck the grounded
branch matches the claim, but there is no airborne branch: when the bottom
edge is above the surface the state — including the jumping flag — is left
unchanged. -/
theorem C3_amended (L d : ℚ) (s : AngryBread) (p : DuckPhys) :
    (s.y + (s.velocityY + breadGravity * (d / 1000)) * (d / 1000) +
          breadFrameHeight * breadScale ≥ L →
        AngryBread.updatePhysics L d s =
          { s with velocityY := 0,
                   y := L - breadFrameHeight * breadScale / 2,
                   isOnGround := true }) ∧
    (s.y + (s.velocityY + breadGravity * (d / 1000)) * (d / 1000) +
          breadFrameHeight * breadScale < L →
        AngryBread.updatePhysics L d s =
          { s with velocityY := s.velocityY + breadGravity * (d / 1000),
                   y := s.y + (s.velocityY + breadGravity * (d / 1000)) * (d / 1000),
                   isOnGround := false }) ∧
    (p.y + duckFrameHeight / 2 ≥ L →
        duckResolveGround L p =
          { y := L - duckFrameHeight / 2, velocityY := 0, isJumping := false }) ∧
    (p.y + duckFrameHeight / 2 < L → duckResolveGround L p = p) := by
  refine ⟨?_, ?_, ?_, ?_⟩
  · intro h
    simp only [AngryBread.updatePhysics, Ground.isOnGround]
    rw [if_pos (by simpa using h)]
  · intro h
    simp only [AngryBread.updatePhysics, Ground.isOnGround]
    rw [if_neg (by simpa using not_le.mpr h)]
  · intro h
    simp only [duckResolveGround]
    rw [if_pos h]
  · intro h
    simp only [duckResolveGround]
    rw [if_neg (not_le.mpr h)]

/-- C3 witness: the grounded AngryBread branch at the bread hovering just
above a surface at 100 with a 0 ms tick. -/
theorem C3_amended_witness :
    (breadNearSurface.y +
        (breadNearSurface.velocityY + breadGravity * ((0 : ℚ) / 1000)) * ((0 : ℚ) / 1000) +
        breadFrameHeight * breadScale ≥ 100) ∧
    AngryBread.updatePhysics 100 0 breadNearSurface =
      { breadNearSurface with velocityY := 0,
                              y := 100 - breadFrameHeight * breadScale / 2,
                              isOnGround := true } :=
  ⟨by norm_num [breadNearSurface, breadGravity, breadFrameHeight, breadScale],
   (C3_amended 100 0 breadNearSurface ⟨0, 0, false⟩).1
     (by norm_num [breadNearSurface, breadGravity, breadFrameHeight, breadScale])⟩

end DuckGame
